import Mathlib

/-!
A shallow embedding of the `git-lib` Rust library (files `src/credentials.rs`,
`src/git_command.rs`, `src/git_command/error.rs`, `src/lib.rs`) together with
theorems settling the specification claims about it.

Rust `Option<String>` is modelled by `Option String`, `Result<A, E>` by
`Except E A`, byte buffers by `List Nat`, and the external world touched by
`std::process` (spawn, the stdin pipe, `write_all`, `wait_with_output`) by an
explicit environment record, so that the control flow of the Rust functions
can be reproduced verbatim as pure Lean functions.
-/

namespace GitLib

/-- `Credentials` from `src/credentials.rs` lines 9-19. -/
structure Credentials where
  protocol : Option String
  host : Option String
  path : Option String
  username : Option String
  password : Option String
  password_expiry_utc : Option String
  oauth_refresh_token : Option String
  url : Option String
  wwwauth : Option (List String)
deriving DecidableEq, Repr

/-- The all-absent record: every field `None`, as produced by parsing input
with no recognized line. -/
def Credentials.empty : Credentials :=
  ⟨none, none, none, none, none, none, none, none, none⟩

/-- Rust `str::split(sep)` on the underlying character sequence: the list of
maximal runs between separator characters. As in Rust, the empty string
splits into `[[]]`, and a trailing separator yields a final empty segment. -/
def splitChars (p : Char → Bool) : List Char → List (List Char)
  | [] => [[]]
  | c :: cs =>
    if p c then [] :: splitChars p cs
    else
      match splitChars p cs with
      | r :: rs => (c :: r) :: rs
      | [] => [[c]]

/-- Rust `str::split` lifted to `String`. -/
def strSplit (s : String) (p : Char → Bool) : List String :=
  (splitChars p s.data).map String.mk

/-- Helper `maybe_writeln` from `impl Display for Credentials`
(`src/credentials.rs` lines 149-158): emits `key=value\n` when the value is
present, nothing otherwise. -/
def maybe_writeln (key : String) (value : Option String) : String :=
  match value with
  | some value => key ++ "=" ++ value ++ "\n"
  | none => ""

/-- `impl Display for Credentials` (`src/credentials.rs` lines 147-169);
note the source passes the key strings `"password_expiry_utc()"` and
`"oauth_refresh_token()"` (with parentheses) to `maybe_writeln`. -/
def Credentials.fmt (c : Credentials) : String :=
  maybe_writeln "protocol" c.protocol ++
  maybe_writeln "host" c.host ++
  maybe_writeln "path" c.path ++
  maybe_writeln "username" c.username ++
  maybe_writeln "password" c.password ++
  maybe_writeln "password_expiry_utc()" c.password_expiry_utc ++
  maybe_writeln "oauth_refresh_token()" c.oauth_refresh_token ++
  maybe_writeln "url" c.url

/-- The body of the `for line in lines` loop of `Credentials::from_str`
(`src/credentials.rs` lines 98-131): `line.split('=')`, take the first
segment as key and the second as value (so a third segment, after a second
`=`, is dropped by the source), and store the value under a recognized key. -/
def applyLine (c : Credentials) (line : String) : Credentials :=
  match strSplit line (· == '=') with
  | key :: value :: _ =>
    if key = "protocol" then { c with protocol := some value }
    else if key = "host" then { c with host := some value }
    else if key = "path" then { c with path := some value }
    else if key = "password" then { c with password := some value }
    else if key = "username" then { c with username := some value }
    else if key = "password_expiry_utc" then { c with password_expiry_utc := some value }
    else if key = "oauth_refresh_token" then { c with oauth_refresh_token := some value }
    else if key = "url" then { c with url := some value }
    else c
  | _ => c

/-- `impl FromStr for Credentials` (`src/credentials.rs` lines 83-145):
split the input on `\n`, fold the loop body over the lines starting from
all-absent fields, and always return `Ok`; `wwwauth` is set to `None`. -/
def Credentials.from_str (s : String) : Except Unit Credentials :=
  Except.ok ((strSplit s (· == '\n')).foldl applyLine Credentials.empty)

/-- The eight key names recognized by `Credentials::from_str`
(`src/credentials.rs` lines 102-126). -/
def recognizedKeys : List String :=
  ["protocol", "host", "path", "password", "username",
   "password_expiry_utc", "oauth_refresh_token", "url"]

/-- A line is recognized by the parser when it has an `=` and its first
segment is one of the eight known keys. -/
def recognizedLine (line : String) : Bool :=
  match strSplit line (· == '=') with
  | key :: _ :: _ =>
    key == "protocol" || key == "host" || key == "path" || key == "password" ||
    key == "username" || key == "password_expiry_utc" ||
    key == "oauth_refresh_token" || key == "url"
  | _ => false

deriving instance DecidableEq for Except

/-- `Error` from `src/git_command/error.rs` lines 8-10: a single message
string. -/
structure Error where
  message : String
deriving DecidableEq, Repr

/-- `Error::new` (`src/git_command/error.rs` lines 13-15). -/
def Error.new (message : String) : Error :=
  ⟨message⟩

/-- `std::process::Output` as used by the source: exit-status success flag
plus captured standard-output and standard-error byte buffers. -/
structure Output where
  success : Bool
  stdout : List Nat
  stderr : List Nat
deriving DecidableEq, Repr

/-- The external world touched by `GitCommand::run_git_command`
(`src/git_command.rs` lines 51-85): the result of `Command::spawn`, whether
`child_process.stdin.take()` yields a pipe, the result of
`stdin.write_all` on given bytes, and the result of `wait_with_output`.
Each error side carries the `to_string()` of the underlying error. -/
structure ProcEnv where
  spawn : Except String Unit
  stdinPipe : Bool
  write_all : String → Except String Unit
  wait_with_output : Except String Output

/-- `GitCommand::git_args` (`src/git_command.rs` lines 41-47): the
subcommand first, then the extra arguments in order, if any. -/
def git_args (command : String) (args : Option (List String)) : List String :=
  match args with
  | some args => command :: args
  | none => [command]

/-- `GitCommand::run_git_command` (`src/git_command.rs` lines 51-85), with
the external effects supplied by a `ProcEnv`. The second component of the
result records the payloads passed to `write_all`, so that the bytes sent to
the child's standard input are part of the function's value. Mirrors the
source: on spawn failure return the spawn error; with a payload, append a
single `\n`, fail with the fixed stdin message when the pipe is missing, fail
with the write error when the write fails; finally surface
`wait_with_output`. -/
def run_git_command (env : ProcEnv) (payload : Option String) :
    Except Error Output × List String :=
  match env.spawn with
  | Except.ok _ =>
    let wait : Except Error Output :=
      match env.wait_with_output with
      | Except.ok output => Except.ok output
      | Except.error error => Except.error (Error.new error)
    match payload with
    | some payload =>
      let payload := payload ++ "\n"
      if env.stdinPipe then
        match env.write_all payload with
        | Except.ok _ => (wait, [payload])
        | Except.error error => (Except.error (Error.new error), [payload])
      else
        (Except.error (Error.new "Can\x27t get stdin"), [])
    | none => (wait, [])
  | Except.error error => (Except.error (Error.new error), [])

/-- `GitCommand::git_command` (`src/git_command.rs` lines 18-36):
run the command, then on success decode standard-output as UTF-8 and return
it, on failure decode standard-error and return it as the error message; a
decode failure yields an error carrying the decode error's own text.
`from_utf8` abstracts `std::str::from_utf8` together with `to_string` of its
error value. -/
def git_command (from_utf8 : List Nat → Except String String) (env : ProcEnv)
    (payload : Option String) : Except Error String :=
  match (run_git_command env payload).1 with
  | Except.error e => Except.error e
  | Except.ok output =>
    if output.success then
      match from_utf8 output.stdout with
      | Except.ok stdout => Except.ok stdout
      | Except.error error => Except.error (Error.new error)
    else
      match from_utf8 output.stderr with
      | Except.ok stderr => Except.error (Error.new stderr)
      | Except.error error => Except.error (Error.new error)

/-- Rust `PathBuf`, a wrapped string for this library's purposes. -/
abbrev PathBuf := String

/-- `PathBuf::from_str`: its error type is `std::convert::Infallible`
(modelled by `Empty`), so it always succeeds. -/
def path_buf_from_str (s : String) : Except Empty PathBuf :=
  Except.ok s

/-- Rust `str::trim_end_matches('\n')` as used in `src/lib.rs` lines 40 and
65: removes every trailing `\n` (repeatedly, not just one). -/
def trimEndMatchesNl (s : String) : String :=
  ⟨(s.data.reverse.dropWhile (· == '\n')).reverse⟩

/-- `GitLib::remote_url` (`src/lib.rs` lines 33-41) as a function of the
result of its single `git_command` invocation: propagate the error, or trim
trailing newlines from the output. -/
def remote_url (inv : Except Error String) : Except Error String :=
  match inv with
  | Except.ok output => Except.ok (trimEndMatchesNl output)
  | Except.error e => Except.error e

/-- `GitLib::is_inside_work_tree` (`src/lib.rs` lines 47-55) as a function of
the result of its single `git_command` invocation: propagate the error, or
discard the output and return `true`. -/
def is_inside_work_tree (inv : Except Error String) : Except Error Bool :=
  match inv with
  | Except.ok _ => Except.ok true
  | Except.error e => Except.error e

/-- `GitLib::top_level` (`src/lib.rs` lines 58-69) as a function of the
result of its single `git_command` invocation: propagate the error, or trim
trailing newlines and convert to a path; the conversion's error arm is kept
from the source (lines 66-68) but its error value is uninhabited. -/
def top_level (inv : Except Error String) : Except Error PathBuf :=
  match inv with
  | Except.ok output =>
    match path_buf_from_str (trimEndMatchesNl output) with
    | Except.ok path => Except.ok path
    | Except.error error => error.elim
  | Except.error e => Except.error e

theorem applyLine_unrecognized (c : Credentials) (line : String)
    (h : recognizedLine line = false) : applyLine c line = c := by
  unfold recognizedLine at h
  unfold applyLine
  cases hs : strSplit line (· == '=') with
  | nil => rfl
  | cons key rest =>
    cases rest with
    | nil => rfl
    | cons value rest =>
      rw [hs] at h
      simp only [Bool.or_eq_false_iff, beq_eq_false_iff_ne, ne_eq] at h
      obtain ⟨⟨⟨⟨⟨⟨⟨h1, h2⟩, h3⟩, h4⟩, h5⟩, h6⟩, h7⟩, h8⟩ := h
      simp [h1, h2, h3, h4, h5, h6, h7, h8]

theorem foldl_applyLine_unrecognized (L : List String) (c : Credentials)
    (h : ∀ l ∈ L, recognizedLine l = false) : L.foldl applyLine c = c := by
  induction L generalizing c with
  | nil => rfl
  | cons l L ih =>
    rw [List.foldl_cons, applyLine_unrecognized c l (h l (by simp))]
    exact ih c (fun x hx => h x (by simp [hx]))

theorem foldl_applyLine_filter (L : List String) (c : Credentials) :
    L.foldl applyLine c = (L.filter recognizedLine).foldl applyLine c := by
  induction L generalizing c with
  | nil => rfl
  | cons l L ih =>
    by_cases h : recognizedLine l
    · simp only [List.filter_cons, h, if_pos, List.foldl_cons]
      exact ih (applyLine c l)
    · simp only [Bool.not_eq_true] at h
      simp only [List.filter_cons, h, Bool.false_eq_true, if_neg, List.foldl_cons,
        applyLine_unrecognized c l h, not_false_iff]
      exact ih c

/-- Claim C1: the round-trip `parse (serialize record) = record` (up to
`wwwauth`) fails on the code. Serializing the record whose only present
field is `password_expiry_utc = "123"` emits the line
`password_expiry_utc()=123`, whose key (with parentheses) the parser does
not recognize, so parsing the serialized form yields the all-absent record
instead of the original. -/
theorem roundTrip_fails_on_password_expiry_utc :
    Credentials.from_str
        (Credentials.fmt { Credentials.empty with password_expiry_utc := some "123" }) =
      Except.ok Credentials.empty ∧
    ({ Credentials.empty with password_expiry_utc := some "123" } : Credentials) ≠
      Credentials.empty := by
  constructor
  · decide
  · decide

/-- Claim C2: serialization does not use the eight claimed key names: for the
two expiry/token fields the emitted keys are `password_expiry_utc()` and
`oauth_refresh_token()` (with parentheses), which are not among the eight
keys the parser recognizes. -/
theorem fmt_emits_parenthesized_keys :
    Credentials.fmt { Credentials.empty with password_expiry_utc := some "123" } =
      "password_expiry_utc()=123\n" ∧
    Credentials.fmt { Credentials.empty with oauth_refresh_token := some "tok" } =
      "oauth_refresh_token()=tok\n" ∧
    recognizedKeys.contains "password_expiry_utc()" = false ∧
    recognizedKeys.contains "oauth_refresh_token()" = false := by
  refine ⟨by decide, by decide, by decide, by decide⟩

/-- Claim C3: the first-`=`-only split fails on the code. `from_str` splits
each line on every `=` and takes only the second segment as the value, so
parsing `password=abc=def` yields `password = "abc"`, not `"abc=def"`. -/
theorem from_str_truncates_value_at_second_eq :
    Credentials.from_str "password=abc=def" =
      Except.ok { Credentials.empty with password := some "abc" } ∧
    ("abc" : String) ≠ "abc=def" := by
  refine ⟨by decide, by decide⟩

/-- Claim C4: parsing never fails — for every input the parser returns a
record; the parse depends only on recognized lines (lines without `=` and
lines with an unrecognized key are silently ignored), and an input all of
whose lines are unrecognized, the empty string included, yields the
all-absent record. -/
theorem from_str_never_fails (s : String) :
    (∃ c, Credentials.from_str s = Except.ok c) ∧
    Credentials.from_str s =
      Except.ok (((strSplit s (· == '\n')).filter recognizedLine).foldl
        applyLine Credentials.empty) ∧
    ((∀ line ∈ strSplit s (· == '\n'), recognizedLine line = false) →
      Credentials.from_str s = Except.ok Credentials.empty) := by
  refine ⟨⟨_, rfl⟩, ?_, ?_⟩
  · unfold Credentials.from_str
    rw [foldl_applyLine_filter]
  · intro h
    unfold Credentials.from_str
    rw [foldl_applyLine_unrecognized _ _ h]

/-- Witness for C4 at the empty input: it parses to the all-absent record. -/
theorem from_str_never_fails_witness :
    Credentials.from_str "" = Except.ok Credentials.empty :=
  (from_str_never_fails "").2.2 (by decide)

/-- Claim C7: the full argument vector is the subcommand followed by the
given arguments in their original order; with no argument list it is the
subcommand alone. -/
theorem git_args_order (command : String) (args : List String) :
    git_args command (some args) = command :: args ∧
    git_args command none = [command] :=
  ⟨rfl, rfl⟩

theorem trimEndMatchesNl_append_newline (t : String)
    (h : t.data.getLast? ≠ some '\n') : trimEndMatchesNl (t ++ "\n") = t := by
  unfold trimEndMatchesNl
  have hd : (t ++ "\n").data = t.data ++ ['\n'] := String.data_append t "\n"
  rw [hd, List.reverse_append]
  show String.mk (List.dropWhile _ ('\n' :: t.data.reverse)).reverse = t
  rw [List.dropWhile_cons]
  simp only [beq_self_eq_true, if_pos]
  have hnodrop : t.data.reverse.dropWhile (· == '\n') = t.data.reverse := by
    cases hr : t.data.reverse with
    | nil => rfl
    | cons a l =>
      have ha : a ≠ '\n' := by
        intro rfl_a
        apply h
        rw [← List.head?_reverse, hr, rfl_a]
        rfl
      rw [List.dropWhile_cons]
      simp [ha]
  rw [hnodrop, List.reverse_reverse]

/-- Claim C5: when the child exits with failure status, the captured run
returns an error whose message is exactly the decoded standard-error text;
when standard-error does not decode, the error instead carries the decode
failure's own text; on success the decoded standard-output is returned. -/
theorem git_command_error_channels (from_utf8 : List Nat → Except String String)
    (env : ProcEnv) (payload : Option String) (output : Output)
    (hrun : (run_git_command env payload).1 = Except.ok output) :
    (output.success = false →
      (∀ s, from_utf8 output.stderr = Except.ok s →
        git_command from_utf8 env payload = Except.error (Error.new s)) ∧
      (∀ e, from_utf8 output.stderr = Except.error e →
        git_command from_utf8 env payload = Except.error (Error.new e))) ∧
    (output.success = true →
      ∀ s, from_utf8 output.stdout = Except.ok s →
        git_command from_utf8 env payload = Except.ok s) := by
  unfold git_command
  rw [hrun]
  refine ⟨fun hf => ⟨fun s hs => ?_, fun e he => ?_⟩, fun ht s hs => ?_⟩
  · simp [hf, hs]
  · simp [hf, he]
  · simp [ht, hs]

/-- Witness for C5: a failed invocation whose standard-error decodes to
`denied` is reported as the error message `denied`. -/
theorem git_command_error_channels_witness :
    git_command (fun b => if b = [100] then Except.ok "denied" else Except.error "bad")
        ⟨Except.ok (), true, fun _ => Except.ok (), Except.ok ⟨false, [], [100]⟩⟩ none =
      Except.error (Error.new "denied") :=
  ((git_command_error_channels
      (fun b => if b = [100] then Except.ok "denied" else Except.error "bad")
      ⟨Except.ok (), true, fun _ => Except.ok (), Except.ok ⟨false, [], [100]⟩⟩
      none ⟨false, [], [100]⟩ rfl).1 rfl).1 "denied" (by decide)

/-- Claim C6: with a payload, the bytes passed to the child's standard input
are exactly the payload followed by one `\n`, written in a single full
write; a missing stdin pipe yields the fixed error, and a failed write
yields an error carrying the write failure's text. -/
theorem run_git_command_payload_write (env : ProcEnv) (p : String)
    (hspawn : env.spawn = Except.ok ()) :
    (env.stdinPipe = true → (run_git_command env (some p)).2 = [p ++ "\n"]) ∧
    (env.stdinPipe = false →
      (run_git_command env (some p)).1 =
        Except.error (Error.new "Can\x27t get stdin")) ∧
    (∀ e, env.stdinPipe = true → env.write_all (p ++ "\n") = Except.error e →
      (run_git_command env (some p)).1 = Except.error (Error.new e)) := by
  unfold run_git_command
  rw [hspawn]
  refine ⟨fun hpipe => ?_, fun hpipe => ?_, fun e hpipe hw => ?_⟩
  · simp only [hpipe, if_pos]
    cases env.write_all (p ++ "\n") <;> rfl
  · simp [hpipe]
  · simp only [hpipe, if_pos, hw]

/-- Witness for C6: with payload `url=u` and a working pipe, the single
write is `url=u` followed by a newline. -/
theorem run_git_command_payload_write_witness :
    (run_git_command ⟨Except.ok (), true, fun _ => Except.ok (),
        Except.ok ⟨true, [], []⟩⟩ (some "url=u")).2 = ["url=u\n"] :=
  (run_git_command_payload_write
    ⟨Except.ok (), true, fun _ => Except.ok (), Except.ok ⟨true, [], []⟩⟩
    "url=u" rfl).1 rfl

/-- Claim C8: `remote_url` and `top_level` trim the trailing newline — for a
successful invocation whose output is `t` followed by exactly one final
newline, the result is exactly `t`. -/
theorem remote_url_top_level_trim (t : String)
    (h : t.data.getLast? ≠ some '\n') :
    remote_url (Except.ok (t ++ "\n")) = Except.ok t ∧
    top_level (Except.ok (t ++ "\n")) = Except.ok t := by
  constructor
  · show Except.ok (trimEndMatchesNl (t ++ "\n")) = Except.ok t
    rw [trimEndMatchesNl_append_newline t h]
  · show Except.ok (trimEndMatchesNl (t ++ "\n")) = Except.ok t
    rw [trimEndMatchesNl_append_newline t h]

/-- Witness for C8: an output of `/some/path` plus newline yields
`/some/path`. -/
theorem remote_url_top_level_trim_witness :
    remote_url (Except.ok ("/some/path" ++ "\n")) = Except.ok "/some/path" :=
  (remote_url_top_level_trim "/some/path" (by decide)).1

/-- Claim C9: `is_inside_work_tree` never returns `Ok false`: a successful
underlying invocation yields `Ok true` and an error is propagated
unchanged. -/
theorem is_inside_work_tree_never_ok_false (inv : Except Error String) :
    is_inside_work_tree inv ≠ Except.ok false ∧
    (∀ s, inv = Except.ok s → is_inside_work_tree inv = Except.ok true) ∧
    (∀ e, inv = Except.error e → is_inside_work_tree inv = Except.error e) := by
  cases inv <;> simp [is_inside_work_tree]

/-- Witness for C9: a successful invocation with output `true` followed by a
newline yields `Ok true`. -/
theorem is_inside_work_tree_never_ok_false_witness :
    is_inside_work_tree (Except.ok "true\n") = Except.ok true :=
  (is_inside_work_tree_never_ok_false (Except.ok "true\n")).2.1 "true\n" rfl

/-- Claim C10: the path-parse error branch of `top_level` is unreachable —
a successful invocation always yields `Ok` of the trimmed output, and every
error `top_level` returns is exactly an error of the underlying
invocation. -/
theorem top_level_parse_branch_unreachable (inv : Except Error String) :
    (∀ s, inv = Except.ok s → top_level inv = Except.ok (trimEndMatchesNl s)) ∧
    (∀ e, top_level inv = Except.error e → inv = Except.error e) ∧
    (∀ e, inv = Except.error e → top_level inv = Except.error e) := by
  cases inv <;> simp [top_level, path_buf_from_str]

/-- Witness for C10: a successful invocation with output `/a/b` plus newline
yields the path `/a/b`. -/
theorem top_level_parse_branch_unreachable_witness :
    top_level (Except.ok "/a/b\n") = Except.ok "/a/b" := by
  have h := (top_level_parse_branch_unreachable (Except.ok "/a/b\n")).1 "/a/b\n" rfl
  rw [h]
  decide

end GitLib
